import Mathlib

/-!
Shallow embedding of `src/PublishItemCards.py` (SDG publisher script) and
verification of the specification's claims about it.

The script walks the SDG taxonomy (goals → targets → indicators → series),
builds item-card metadata per series, and creates/updates items in a remote
catalog.  Remote calls and the local file system are modelled by an oracle
environment `Env`; their observable actions are recorded in an event trace.
Python-specific semantics (`int()` raising `ValueError`, truthiness, typed
`!=` between `int` and `str`, unbound-name `NameError`, string slicing,
`str.capitalize`) are modelled explicitly by the `py*` helpers below.
-/

/-- A Python value that can be passed as one of the optional filter arguments
of `process_sdg_information` (default `None`; callers pass strings or ints). -/
inductive PyVal where
  | none
  | int (n : Int)
  | str (s : String)
deriving DecidableEq, Repr

/-- Decimal digits to a number; `Option.none` when the list is empty or holds
a non-digit. -/
def parseDigits (ds : List Char) : Option Nat :=
  if ds.isEmpty then Option.none
  else if ds.all Char.isDigit then
    Option.some (ds.foldl (fun n c => n * 10 + (c.toNat - '0'.toNat)) 0)
  else Option.none

/-- Python `int(s)` on a string: parses an optionally signed decimal integer,
`Option.none` models the `ValueError` raised on any other input (e.g. `"1.1"`). -/
def pyInt (s : String) : Option Int :=
  match s.data with
  | '-' :: ds => (parseDigits ds).map (fun n => -(n : Int))
  | ds => (parseDigits ds).map (fun n => (n : Int))

/-- Python `n != v` where `n` is an `int` and `v` an arbitrary value: values of
different types are never equal, so comparing against a string is always true. -/
def pyNeInt (n : Int) : PyVal → Bool
  | PyVal.int m => n != m
  | PyVal.str _ => true
  | PyVal.none => true

/-- Python truthiness of a filter argument (`if indicator_code:`):
`None` and the empty string are falsy, a nonzero int is truthy. -/
def pyTruthy : PyVal → Bool
  | PyVal.none => false
  | PyVal.int n => n != 0
  | PyVal.str s => s != ""

/-- Python `s == v` where `s` is a `str` and `v` an arbitrary value:
equal only when `v` is an equal string. -/
def pyEqStr (s : String) : PyVal → Bool
  | PyVal.str t => s == t
  | _ => false

/-- Python `v is None` for a filter argument. -/
def PyVal.isNoneV : PyVal → Bool
  | PyVal.none => true
  | _ => false

/-- Python string slicing `s[:n]` (first `n` code points). -/
def pyTake (n : Nat) (s : String) : String :=
  String.mk (s.data.take n)

/-- Python `str.capitalize()`: first character uppercased, every remaining
character lowercased. -/
def pyCapitalize (s : String) : String :=
  match s.data with
  | [] => ""
  | c :: cs => String.mk (c.toUpper :: cs.map Char.toLower)

/-- Python `s.replace("_", " ")` (the pattern is a single character, so this
is a character-wise map). -/
def pyReplaceUnderscore (s : String) : String :=
  String.mk (s.data.map (fun c => if c = '_' then ' ' else c))

/-- Python `s.replace('.', '')` as used on the release version
(`series["release"].replace('.', '')`). -/
def pyRemoveDots (s : String) : String :=
  String.mk (s.data.filter (fun c => c ≠ '.'))

/-! ## Data model: the two remote JSON documents (spec §6).

The indicator taxonomy (`json_data`, from the SDG API) and the display
metadata (`sdg_metadata`, from `get_metadata()`). -/

/-- A series node of the indicator taxonomy: `{code, description, release}`. -/
structure Series where
  code : String
  description : String
  release : String
deriving DecidableEq, Repr

/-- An indicator node: `{code, description, series:[...]}`. -/
structure Indicator where
  code : String
  description : String
  series : List Series
deriving DecidableEq, Repr

/-- A target node: `{code, description, indicators:[...]}`. -/
structure Target where
  code : String
  description : String
  indicators : List Indicator
deriving DecidableEq, Repr

/-- A goal node: `{code, title, description, targets:[...]}`. -/
structure Goal where
  code : String
  title : String
  description : String
  targets : List Target
deriving DecidableEq, Repr

/-- Display-metadata series entry: `{series, tags:[...]}`. -/
structure MetaSeries where
  series : String
  tags : List String
deriving DecidableEq, Repr

/-- Display-metadata indicator entry: `{indicator, series:[...]}`. -/
structure MetaIndicator where
  indicator : String
  series : List MetaSeries
deriving DecidableEq, Repr

/-- Display-metadata target entry: `{target, indicators:[...]}`. -/
structure MetaTarget where
  target : String
  indicators : List MetaIndicator
deriving DecidableEq, Repr

/-- Display-metadata goal record: `{goal:int, icon_url_sq?, targets:[...]}`;
`icon_url_sq` is an optional key, modelled as `Option`. -/
structure GoalMeta where
  goal : Int
  icon_url_sq : Option String
  targets : List MetaTarget
deriving DecidableEq, Repr

/-- The fixed fallback thumbnail URL of line 144. -/
def default_thumbnail : String :=
  "http://undesa.maps.arcgis.com/sharing/rest/content/items/aaa0678dba0a466e8efef6b9f11775fe/data"

/-- `get_series_tags` (lines 85-97): nested scan of the goal's display
metadata for the first (target, indicator, series) triple matching the three
codes, returning its `tags`; `[]` if no triple matches.  The scan continues
with later targets when an earlier matching target lacks the indicator or
series (the `return []` is only reached after the whole outer loop). -/
def get_series_tags (goal_metadata : GoalMeta) (indicator_code target_code series_code : String) :
    List String :=
  match goal_metadata.targets.findSome? (fun target =>
    if target.target == target_code then
      target.indicators.findSome? (fun indicator =>
        if indicator.indicator == indicator_code then
          indicator.series.findSome? (fun series =>
            if series.series == series_code then Option.some series.tags else Option.none)
        else Option.none)
    else Option.none) with
  | Option.some tags => tags
  | Option.none => []

/-- Lines 198-201: the snippet for a series.  The empty description is first
replaced by the series code (`if not series["description"]`), then
`"{code}: {description}"` is truncated to its first 250 characters plus
`".."` when longer than 250. -/
def build_snippet (code description : String) : String :=
  let description := if description == "" then code else description
  let snippet := code ++ ": " ++ description
  if snippet.length > 250 then pyTake 250 snippet ++ ".." else snippet

/-- Lines 205-211: the item tags.  Start from goal ++ target ++ indicator
tags, extend with the taxonomy series tags from display metadata, then append
the release version. -/
def build_final_tags (gm : GoalMeta) (goalTags targetTags indTags : List String)
    (indicatorCode targetCode : String) (series : Series) : List String :=
  let final_tags := goalTags ++ targetTags ++ indTags
  let final_tags := final_tags ++ get_series_tags gm indicatorCode targetCode series.code
  let final_tags := final_tags ++ [series.release]
  final_tags

/-! ## `set_field_alias` (lines 247-273) -/

/-- `set_field_alias`: chain of exact field-name comparisons with a
`capitalize().replace("_", " ")` fallback. -/
def set_field_alias (field_name : String) : String :=
  if field_name = "series_release" then "Series Release"
  else if field_name = "series_code" then "Series Code"
  else if field_name = "series_description" then "Series Description"
  else if field_name = "geoAreaCode" then "Geographic Area Code"
  else if field_name = "geoAreaName" then "Geographic Area Name"
  else if field_name = "Freq" then "Frequency"
  else if field_name = "latest_year" then "Latest Year"
  else if field_name = "latest_value" then "Latest Value"
  else if field_name = "latest_source" then "Latest Source"
  else if field_name = "latest_nature" then "Latest Nature"
  else if field_name = "last_5_years_mean" then "Mean of the Last 5 Years"
  else if field_name = "ISO3CD" then "ISO3 Code"
  else pyReplaceUnderscore (pyCapitalize field_name)

/-- The field-name → alias pairs of the chain, as a static table. -/
def field_alias_table : List (String × String) :=
  [("series_release", "Series Release"),
   ("series_code", "Series Code"),
   ("series_description", "Series Description"),
   ("geoAreaCode", "Geographic Area Code"),
   ("geoAreaName", "Geographic Area Name"),
   ("Freq", "Frequency"),
   ("latest_year", "Latest Year"),
   ("latest_value", "Latest Value"),
   ("latest_source", "Latest Source"),
   ("latest_nature", "Latest Nature"),
   ("last_5_years_mean", "Mean of the Last 5 Years"),
   ("ISO3CD", "ISO3 Code")]

/-- First-match lookup in an association table. -/
def lookupAlias : List (String × String) → String → Option String
  | [], _ => Option.none
  | (k, v) :: rest, name => if name = k then Option.some v else lookupAlias rest name

/-- Splits a character list on `'_'` (Python `s.split("_")`). -/
def splitUnderscore (l : List Char) : List (List Char) :=
  l.foldr (fun c acc =>
    if c = '_' then [] :: acc else (c :: acc.headD []) :: acc.tail) [[]]

/-- Joins words with single spaces (Python `" ".join(ws)`). -/
def joinSpace : List String → String
  | [] => ""
  | [w] => w
  | w :: ws => w ++ " " ++ joinSpace ws

/-- Modelled from the spec: the claimed default of the alias mapping,
"the name title-cased with underscores replaced by spaces" — each
underscore-separated word capitalized and the words joined with spaces. -/
def set_field_alias_titlecase (field_name : String) : String :=
  match lookupAlias field_alias_table field_name with
  | Option.some a => a
  | Option.none =>
    joinSpace ((splitUnderscore field_name.data).map (fun w => pyCapitalize (String.mk w)))

/-! ## The remote-catalog environment and the walk state.

The script's remote calls (`content.search`, `item.update`, `item.share`,
`content.add`, the analyze endpoint, `os.path.isfile`, folder queries) are
modelled by an oracle environment; the walk records its observable remote
actions in an event trace and threads the two module-level mutable pieces of
state: the open-data group's tag list and the `failed_series` ledger. -/

/-- The dictionary of card metadata built per series (lines 195-211);
the `type`/`url` keys set on the CSV copy are not observable and elided. -/
structure ItemProperties where
  title : String
  snippet : String
  description : String
  tags : List String
deriving DecidableEq, Repr

/-- An observable action performed while walking the taxonomy. -/
inductive Event where
  /-- The per-series progress print of line 214. -/
  | processed (indicatorCode seriesCode : String)
  /-- A catalog search issued by `find_online_item` (line 313). -/
  | searchFor (title : String)
  /-- `gis_online_connection.content.add` (line 349). -/
  | addItem (props : ItemProperties) (thumbnail : String) (dataFile : String)
  /-- `csv_item.publish` (line 365). -/
  | publishSvc (name : String)
  /-- An `item.update` carrying item properties and thumbnail (lines 222, 381). -/
  | updateItem (props : ItemProperties) (thumbnail : String)
  /-- `csv_item.update(..., data=file)` (line 368). -/
  | updateDataItem (props : ItemProperties) (thumbnail : String) (dataFile : String)
  /-- `online_item.share` (line 231). -/
  | shareItem (title : String)
  /-- `item.move("Open Data")` (lines 377, 385). -/
  | moveItem (title : String)
deriving DecidableEq, Repr

/-- The module-level mutable state: the open-data group's tag list
(`open_data_group["tags"]`), the `failed_series` ledger, and the trace of
observable remote actions. -/
structure WalkState where
  groupTags : List String
  failed_series : List String
  events : List Event
deriving DecidableEq, Repr

/-- Oracles for the remote service and the file system.  Items are identified
by their title.  `updateRaises`/`shareRaises` model a remote call raising an
exception; `addOk`/`analyzeOk` model `content.add` and the analyze endpoint
succeeding (both failure shapes — `None` result or exception — are observably
identical because of the surrounding `except` blocks). -/
structure Env where
  searchResults : String → List String
  updateRaises : String → Bool
  shareRaises : String → Bool
  fileExists : String → Bool
  addOk : String → Bool
  analyzeOk : String → Bool
  ownerFolder : String → Option String

/-- Control flow out of a loop body: fall through to the next iteration,
a `return` unwinding to a normal exit of `process_sdg_information` (line 241),
or an exception propagating to the top-level `except` (line 243). -/
inductive Ctl where
  | next
  | ret
  | exc
deriving DecidableEq, Repr

/-- Appends an event to the trace. -/
def WalkState.log (st : WalkState) (e : Event) : WalkState :=
  { st with events := st.events ++ [e] }

/-- `find_online_item` (lines 308-323): search the catalog for the title and
return the first result whose title matches exactly; `None` when nothing
matches (its own `except` also reduces errors to `None`). -/
def find_online_item (env : Env) (title : String) (st : WalkState) :
    WalkState × Option String :=
  let st := st.log (Event.searchFor title)
  (st, (env.searchResults title).find? (fun r => r == title))

/-- `publish_csv` (lines 332-394).  Returns the derived service item (by
title) or `None`; every internal exception is caught at line 392 and reduced
to `None`.  On the creation path, after a successful analyze, line 362 reads
the unbound global name `publishParameters` (the local is `publish_parameters`),
raising `NameError`; the bare `except` catches it, so `csv_item.publish` at
line 365 is never reached and `None` is returned. -/
def publish_csv (env : Env) (series : Series) (item_properties : ItemProperties)
    (thumbnail : String) (st : WalkState) : WalkState × Option String :=
  let data_dir := "FIS4SDGs/csv/"
  let series_title := series.code ++ "_" ++ pyRemoveDots series.release
  let file := data_dir ++ series.code ++ "_cube.pivot.csv"
  if env.fileExists file then
    let csv_item_properties := { item_properties with title := series_title }
    let (st, csv_item) := find_online_item env csv_item_properties.title st
    match csv_item with
    | Option.none =>
      if env.addOk series_title then
        let st := st.log (Event.addItem csv_item_properties thumbnail file)
        if env.analyzeOk series_title then
          -- line 362: NameError on the undefined `publishParameters`; caught at line 392
          (st, Option.none)
        else
          -- analyze returned None: record the failure and return None (lines 357-359)
          ({ st with failed_series := st.failed_series ++ [series.code] }, Option.none)
      else
        (st, Option.none)
    | Option.some _ =>
      if env.updateRaises series_title then
        (st, Option.none)
      else
        let st := st.log (Event.updateDataItem csv_item_properties thumbnail file)
        let (st, csv_lyr) := find_online_item env item_properties.title st
        match csv_lyr with
        | Option.none => (st, Option.none)
        | Option.some lyr =>
          let st := if (env.ownerFolder series_title).isNone
            then st.log (Event.moveItem series_title) else st
          if env.updateRaises item_properties.title then
            (st, Option.none)
          else
            let st := st.log (Event.updateItem item_properties thumbnail)
            let st := if (env.ownerFolder item_properties.title).isNone
              then st.log (Event.moveItem item_properties.title) else st
            (st, Option.some lyr)
  else
    (st, Option.none)

/-- Lines 195-211: the item-card properties for one series.  The title is
built from the original description; the empty description is then replaced
by the series code before the snippet and long description are built. -/
def series_item_properties (gm : GoalMeta) (goalTags targetTags indTags : List String)
    (pi_name pi_description : String) (targetCode indicatorCode : String)
    (series : Series) : ItemProperties :=
  let title := pi_name ++ " (" ++ series.code ++ "): " ++ series.description
  let description := if series.description == "" then series.code else series.description
  let item_description := "<p><strong>Series " ++ series.code ++ ": </strong>" ++ description
    ++ "</p>" ++ pi_description
    ++ "<p><strong>Release Version</strong>: " ++ series.release
  { title := title
    snippet := build_snippet series.code series.description
    description := item_description
    tags := build_final_tags gm goalTags targetTags indTags indicatorCode targetCode series }

/-- Lines 228-236, the branch where `online_item` is not `None`: share the
item with the open-data group (which may raise) and append the series code to
the group's tags.  Raising hits the `except` at line 237: the series code is
recorded and `return` executed. -/
def share_tail (env : Env) (series : Series) (it : String) (st : WalkState) :
    WalkState × Ctl :=
  if env.shareRaises it then
    ({ st with failed_series := st.failed_series ++ [series.code] }, Ctl.ret)
  else
    let st := st.log (Event.shareItem it)
    let st := { st with groupTags := st.groupTags ++ [series.code] }
    (st, Ctl.next)

/-- Lines 194-241: processing of one series that passed the filters —
build the item card, then the guarded publish/update step.  In metadata-only
mode a missing item is recorded at line 219 and again at line 236; a raising
`item.update` is caught at line 237 (record and `return`).  In full-publish
mode `publish_csv` never raises; a `None` result is recorded at line 236. -/
def series_step (env : Env) (property_update_only : Bool) (gm : GoalMeta)
    (thumbnail : String) (goalTags targetTags indTags : List String)
    (pi_name pi_description : String) (targetCode indicatorCode : String)
    (series : Series) (st : WalkState) : WalkState × Ctl :=
  let item_properties :=
    series_item_properties gm goalTags targetTags indTags pi_name pi_description
      targetCode indicatorCode series
  let st := st.log (Event.processed indicatorCode series.code)
  if property_update_only then
    let (st, online_item) := find_online_item env item_properties.title st
    match online_item with
    | Option.none =>
      -- line 219
      let st := { st with failed_series := st.failed_series ++ [series.code] }
      -- online_item is None, so line 236 records the same code again
      ({ st with failed_series := st.failed_series ++ [series.code] }, Ctl.next)
    | Option.some it =>
      if env.updateRaises it then
        ({ st with failed_series := st.failed_series ++ [series.code] }, Ctl.ret)
      else
        let st := st.log (Event.updateItem item_properties thumbnail)
        share_tail env series it st
  else
    let (st, online_item) := publish_csv env series item_properties thumbnail st
    match online_item with
    | Option.none =>
      ({ st with failed_series := st.failed_series ++ [series.code] }, Ctl.next)
    | Option.some it => share_tail env series it st

/-- The four optional filter arguments of `process_sdg_information`
(defaults `None`), in the order of the source signature. -/
structure Filters where
  goal_code : PyVal
  indicator_code : PyVal
  target_code : PyVal
  series_code : PyVal
deriving DecidableEq, Repr

/-- All filters absent (the source defaults). -/
def Filters.allNone : Filters :=
  ⟨PyVal.none, PyVal.none, PyVal.none, PyVal.none⟩

/-- Lines 128 / 157: `filter is not None and int(code) != filter`.
`Option.some b` means the guard evaluated to `b` (skip the node when `true`);
`Option.none` means `int()` raised `ValueError`. -/
def numericFilterSkip (code : String) (filter : PyVal) : Option Bool :=
  if filter.isNoneV then Option.some false
  else
    match pyInt code with
    | Option.none => Option.none
    | Option.some n => Option.some (pyNeInt n filter)

/-- Lines 132-135: scan `sdg_metadata` for the first record whose `goal`
equals `int(goal["code"])`.  The outer `Option.none` models an exception
during the scan (`int()` raising on a non-numeric goal code, evaluated only
if the list is nonempty); the inner option is the scan result. -/
def lookup_goal_meta (metadata : List GoalMeta) (g : Goal) : Option (Option GoalMeta) :=
  if metadata.isEmpty then Option.some Option.none
  else
    match pyInt g.code with
    | Option.none => Option.none
    | Option.some n => Option.some (metadata.find? (fun m => m.goal == n))

/-- Sequencing of one loop-body result with the rest of the enclosing loops:
on `Ctl.next` continue with the rest, otherwise (`return` of line 241 or a
propagating exception) unwind immediately with the state reached. -/
def loopSeq (r : WalkState × Ctl) (k : WalkState → WalkState × Ctl) : WalkState × Ctl :=
  match r with
  | (st, Ctl.next) => k st
  | (st, f) => (st, f)

/-- Lines 189-241, the `for series in indicator["series"]` loop.  The filter
guard (line 191) skips a series only when `indicator_code` is truthy and the
series code differs from a non-`None` `series_code`. -/
def series_loop (env : Env) (property_update_only : Bool) (filters : Filters)
    (gm : GoalMeta) (thumbnail : String) (goalTags targetTags indTags : List String)
    (pi_name pi_description : String) (targetCode indicatorCode : String)
    (l : List Series) (st : WalkState) : WalkState × Ctl :=
  match l with
  | [] => (st, Ctl.next)
  | s :: rest =>
    if pyTruthy filters.indicator_code
        && !(pyEqStr s.code filters.series_code || filters.series_code.isNoneV) then
      series_loop env property_update_only filters gm thumbnail goalTags targetTags indTags
        pi_name pi_description targetCode indicatorCode rest st
    else
      loopSeq (series_step env property_update_only gm thumbnail goalTags targetTags indTags
          pi_name pi_description targetCode indicatorCode s st)
        (fun st' =>
          series_loop env property_update_only filters gm thumbnail goalTags targetTags indTags
            pi_name pi_description targetCode indicatorCode rest st')
termination_by structural l

/-- Lines 165-241, the `for indicator in target["indicators"]` loop: filter
guard (line 167), indicator tag pushed onto the group tags (line 175), the
composed indicator description (lines 178-183), then the series loop. -/
def indicator_loop (env : Env) (property_update_only : Bool) (filters : Filters)
    (gm : GoalMeta) (thumbnail : String) (goalTags targetTags : List String)
    (goal : Goal) (target : Target)
    (l : List Indicator) (st : WalkState) : WalkState × Ctl :=
  match l with
  | [] => (st, Ctl.next)
  | ind :: rest =>
    if pyTruthy filters.indicator_code && !(pyEqStr ind.code filters.indicator_code) then
      indicator_loop env property_update_only filters gm thumbnail goalTags targetTags
        goal target rest st
    else
      let pi_name := "Indicator " ++ ind.code
      let pi_tags := [pi_name]
      let st := { st with groupTags := st.groupTags ++ pi_tags }
      let pi_description := "<p><strong>Indicator " ++ ind.code ++ ": </strong>"
        ++ ind.description ++ "</p>" ++ "</p><p><strong>Target " ++ target.code
        ++ ": </strong>" ++ target.description ++ "</p>" ++ "<p>" ++ goal.description ++ "</p>"
      loopSeq (series_loop env property_update_only filters gm thumbnail goalTags targetTags
          pi_tags pi_name pi_description target.code ind.code ind.series st)
        (fun st' =>
          indicator_loop env property_update_only filters gm thumbnail goalTags targetTags
            goal target rest st')
termination_by structural l

/-- Lines 155-241, the `for target in goal["targets"]` loop: numeric filter
guard (line 157, raising `ValueError` on non-numeric target codes such as
`"1.1"` whenever `target_code` is set), target tag pushed onto the group tags
(line 162), then the indicator loop. -/
def target_loop (env : Env) (property_update_only : Bool) (filters : Filters)
    (gm : GoalMeta) (thumbnail : String) (goalTags : List String) (goal : Goal)
    (l : List Target) (st : WalkState) : WalkState × Ctl :=
  match l with
  | [] => (st, Ctl.next)
  | t :: rest =>
    match numericFilterSkip t.code filters.target_code with
    | Option.none => (st, Ctl.exc)
    | Option.some true =>
      target_loop env property_update_only filters gm thumbnail goalTags goal rest st
    | Option.some false =>
      let group_target_tags := ["Target " ++ t.code]
      let st := { st with groupTags := st.groupTags ++ group_target_tags }
      loopSeq (indicator_loop env property_update_only filters gm thumbnail goalTags
          group_target_tags goal t t.indicators st)
        (fun st' =>
          target_loop env property_update_only filters gm thumbnail goalTags goal rest st')
termination_by structural l

/-- Lines 126-241, the `for goal in json_data` loop.  `goal_metadata` is the
Python local of line 134: never initialized, bound by the metadata scan when
a record matches, and retaining its previous binding otherwise; reading it
while still unbound (line 137) raises `NameError`.  A `None` result of
`get_metadata()` raises `TypeError` when iterated (line 132).  The thumbnail
(lines 141-144) is the record's `icon_url_sq` if the key is present, else the
fallback constant. -/
def goal_loop (env : Env) (property_update_only : Bool) (filters : Filters)
    (metadata : Option (List GoalMeta))
    (l : List Goal) (goal_metadata : Option GoalMeta) (st : WalkState) : WalkState × Ctl :=
  match l with
  | [] => (st, Ctl.next)
  | g :: rest =>
    match numericFilterSkip g.code filters.goal_code with
    | Option.none => (st, Ctl.exc)
    | Option.some true =>
      goal_loop env property_update_only filters metadata rest goal_metadata st
    | Option.some false =>
      match metadata with
      | Option.none => (st, Ctl.exc)
      | Option.some ms =>
        match lookup_goal_meta ms g with
        | Option.none => (st, Ctl.exc)
        | Option.some found =>
          let goal_metadata :=
            match found with
            | Option.some m => Option.some m
            | Option.none => goal_metadata
          match goal_metadata with
          | Option.none => (st, Ctl.exc)
          | Option.some gm =>
            let thumbnail :=
              match gm.icon_url_sq with
              | Option.some u => u
              | Option.none => default_thumbnail
            let group_goal_tags := ["SDG " ++ g.code]
            loopSeq (target_loop env property_update_only filters gm thumbnail group_goal_tags
                g g.targets st)
              (fun st' =>
                goal_loop env property_update_only filters metadata rest goal_metadata st')
termination_by structural l

/-- `process_sdg_information` (lines 122-244): run the goal loop under the
top-level `try`.  Whatever control flow the walk ends with — normal
completion, the fail-fast `return` of line 241, or an exception caught by the
bare `except` of line 243 — the function returns normally with the state
reached so far; no exception escapes. -/
def process_sdg_information (env : Env) (json_data : List Goal)
    (metadata : Option (List GoalMeta)) (filters : Filters)
    (property_update_only : Bool) (st : WalkState) : WalkState :=
  (goal_loop env property_update_only filters metadata json_data Option.none st).1

/-! ## Test fixtures for the concrete-run theorems. -/

/-- Recognizer for the per-series progress print events. -/
def Event.isProcessedEv : Event → Bool
  | Event.processed _ _ => true
  | _ => false

/-- The thumbnail carried by an `updateItem` event. -/
def thumbOfUpdate : Event → Option String
  | Event.updateItem _ th => Option.some th
  | _ => Option.none

/-- The empty initial state: the group starts with some tag list; for the
concrete runs we start it empty. -/
def st0 : WalkState := ⟨[], [], []⟩

/-- A remote catalog in which no searched item exists and nothing raises. -/
def envNotFound : Env :=
  ⟨fun _ => [], fun _ => false, fun _ => false, fun _ => false, fun _ => false,
   fun _ => false, fun _ => Option.none⟩

/-- A remote catalog in which every searched title is found and nothing
raises. -/
def envFound : Env :=
  ⟨fun t => [t], fun _ => false, fun _ => false, fun _ => false, fun _ => false,
   fun _ => false, fun _ => Option.none⟩

/-- A remote catalog for a first full publish: the data file exists, no item
exists yet, `content.add` and the analyze endpoint both succeed. -/
def envFresh : Env :=
  ⟨fun _ => [], fun _ => false, fun _ => false, fun _ => true, fun _ => true,
   fun _ => true, fun _ => Option.none⟩

/-- A remote catalog for a second full-publish run: only the raw CSV item
(normalized title `SI_POV_DAY1_20201`) exists; the data file exists. -/
def envSecondRun : Env :=
  ⟨fun t => if t = "SI_POV_DAY1_20201" then [t] else [], fun _ => false, fun _ => false,
   fun _ => true, fun _ => true, fun _ => true, fun _ => Option.none⟩

/-- A two-goal taxonomy: goal 1 with two series under indicator 1.1.1, and
goal 2 with one series. -/
def goalsA : List Goal :=
  [⟨"1", "No poverty", "End poverty",
    [⟨"1.1", "t-desc",
      [⟨"1.1.1", "i-desc",
        [⟨"SI_POV_DAY1", "d1", "2020.1"⟩, ⟨"SI_POV_EMP1", "d2", "2020.1"⟩]⟩]⟩]⟩,
   ⟨"2", "Zero hunger", "End hunger",
    [⟨"2.1", "t2",
      [⟨"2.1.1", "i2", [⟨"SN_ITK_DEFC", "d3", "2020.1"⟩]⟩]⟩]⟩]

/-- Display metadata with records for goals 1 and 2. -/
def metaA : List GoalMeta :=
  [⟨1, Option.some "icon1", []⟩, ⟨2, Option.some "icon2", []⟩]

/-- A two-goal taxonomy with one series per goal. -/
def goalsB : List Goal :=
  [⟨"1", "g1", "gd1", [⟨"1.1", "td1", [⟨"1.1.1", "id1", [⟨"S1", "sd1", "2020.1"⟩]⟩]⟩]⟩,
   ⟨"2", "g2", "gd2", [⟨"2.1", "td2", [⟨"2.1.1", "id2", [⟨"S2", "sd2", "2020.1"⟩]⟩]⟩]⟩]

/-- Display metadata that has a record only for goal 1. -/
def metaB : List GoalMeta := [⟨1, Option.some "ICON1", []⟩]

/-- A remote catalog in which every searched title is found and every
`item.update` raises. -/
def envFoundRaise : Env :=
  ⟨fun t => [t], fun _ => true, fun _ => false, fun _ => false, fun _ => false,
   fun _ => false, fun _ => Option.none⟩

/-- A remote catalog in which every searched item is found, the data file
exists, updates succeed, but every `item.share` raises; items already live in
a folder, so no moves happen. -/
def envShareRaise : Env :=
  ⟨fun t => [t], fun _ => false, fun _ => true, fun _ => true, fun _ => true,
   fun _ => true, fun _ => Option.some "Open Data"⟩

/-- A remote catalog in which every searched title is found and exactly the
update of the item titled `"Indicator IA (SB): d2"` raises — the walk's first
series succeeds, the second raises. -/
def envRaiseSecond : Env :=
  ⟨fun t => [t], fun t => t == "Indicator IA (SB): d2", fun _ => false, fun _ => false,
   fun _ => false, fun _ => false, fun _ => Option.none⟩

/-! ## Claim theorems -/

/-- C4 (counterexample): the claim states the snippet equals
`"{code}: {description}"` whenever that string is at most 250 characters, but
for an empty description the code first replaces the description by the series
code (line 199), so the snippet for code `"X"` and description `""` is
`"X: X"`, not `"X: "`. -/
theorem snippet_formula_counterexample :
    build_snippet "X" "" = "X: X"
      ∧ ("X" ++ ": " ++ "").length ≤ 250
      ∧ build_snippet "X" "" ≠ "X" ++ ": " ++ "" :=
  ⟨rfl, by decide, by decide⟩

/-- C4 (amended): with the empty description first replaced by the series
code, the snippet equals `"{code}: {description}"` when that string is at
most 250 characters and otherwise its first 250 characters followed by
`".."`; consequently the snippet never exceeds 252 characters, and a
truncated snippet ends with `".."`. -/
theorem snippet_truncation (code description : String) :
    build_snippet code description =
      (if (code ++ ": " ++ (if description == "" then code else description)).length > 250
       then pyTake 250 (code ++ ": " ++ (if description == "" then code else description)) ++ ".."
       else code ++ ": " ++ (if description == "" then code else description))
    ∧ (build_snippet code description).length ≤ 252
    ∧ ((code ++ ": " ++ (if description == "" then code else description)).length > 250 →
        (build_snippet code description).data
          = (code ++ ": " ++ (if description == "" then code else description)).data.take 250
            ++ ['.', '.']) := by
  have heq : build_snippet code description =
      (if (code ++ ": " ++ (if description == "" then code else description)).length > 250
       then pyTake 250 (code ++ ": " ++ (if description == "" then code else description)) ++ ".."
       else code ++ ": " ++ (if description == "" then code else description)) := rfl
  refine ⟨heq, ?_, ?_⟩
  · rw [heq]
    set s := code ++ ": " ++ (if description == "" then code else description) with hs
    by_cases h : s.length > 250
    · rw [if_pos h]
      have h2 : (pyTake 250 s ++ "..").length = (s.data.take 250).length + 2 := by
        rw [String.length_append]; rfl
      have h3 := List.length_take_le 250 s.data
      omega
    · rw [if_neg h]
      omega
  · intro h
    rw [heq, if_pos h]
    rfl

set_option maxRecDepth 4000 in
/-- C4 (witness for the amended theorem): a 253-character snippet source is
truncated to its first 250 characters plus `".."`. -/
theorem snippet_truncation_witness :
    (("c" ++ ": " ++ (if (String.mk (List.replicate 250 'a')) == ""
        then "c" else String.mk (List.replicate 250 'a'))).length > 250)
    ∧ (build_snippet "c" (String.mk (List.replicate 250 'a'))).data
        = ("c" ++ ": " ++ (if (String.mk (List.replicate 250 'a')) == ""
            then "c" else String.mk (List.replicate 250 'a'))).data.take 250 ++ ['.', '.'] :=
  ⟨by decide, (snippet_truncation "c" (String.mk (List.replicate 250 'a'))).2.2 (by decide)⟩

/-- C5: the item tag list equals the concatenation, in order, of the goal
tags, the target tags, the indicator tags, the taxonomy series tags from
display metadata, and the single release tag; and the occurrence count of
every tag is the sum of its counts in the five components, so the
construction is order-preserving, only appends, and never deduplicates. -/
theorem final_tags_concatenation (gm : GoalMeta) (goalTags targetTags indTags : List String)
    (indicatorCode targetCode : String) (series : Series) :
    build_final_tags gm goalTags targetTags indTags indicatorCode targetCode series
      = goalTags ++ targetTags ++ indTags
        ++ get_series_tags gm indicatorCode targetCode series.code ++ [series.release]
    ∧ ∀ x : String,
        (build_final_tags gm goalTags targetTags indTags indicatorCode targetCode series).count x
          = goalTags.count x + targetTags.count x + indTags.count x
            + (get_series_tags gm indicatorCode targetCode series.code).count x
            + [series.release].count x := by
  constructor
  · simp [build_final_tags, List.append_assoc]
  · intro x
    simp only [build_final_tags, List.count_append]

/-- C8 (counterexample): for the unlisted field name `"foo_bar"`,
`set_field_alias` returns `"Foo bar"` (Python `capitalize()` lowercases every
character after the first), while the claimed title-cased default is
`"Foo Bar"`. -/
theorem field_alias_counterexample :
    set_field_alias "foo_bar" = "Foo bar"
      ∧ set_field_alias_titlecase "foo_bar" = "Foo Bar"
      ∧ set_field_alias "foo_bar" ≠ set_field_alias_titlecase "foo_bar" :=
  ⟨by decide, by decide, by decide⟩

set_option maxHeartbeats 1000000 in
/-- C8 (amended): `set_field_alias` returns the alias from the fixed
field-name-to-alias table when the name is listed there, and otherwise
returns the name with its first character uppercased and every remaining
character lowercased, with underscores then replaced by spaces. -/
theorem field_alias_table_lookup (field_name : String) :
    set_field_alias field_name =
      (lookupAlias field_alias_table field_name).getD
        (pyReplaceUnderscore (pyCapitalize field_name)) := by
  unfold set_field_alias
  split_ifs <;> try (subst_vars; decide)
  have hnone : lookupAlias field_alias_table field_name = Option.none := by
    simp_all [field_alias_table, lookupAlias]
  rw [hnone]
  rfl

/-- C2 (divergence): calling `process_sdg_information` with
`goal_code='1'` (a string, as the source's own usage comments show) and
`series_code='SI_POV_DAY1'` processes nothing at all — `int(goal["code"]) !=
goal_code` compares an int against a string, which is always unequal, so
every goal is skipped and the state is returned unchanged.  With the numeric
filter `goal_code=1` instead, the walk processes *two* series, not exactly
one: the series filter of line 191 is applied only when `indicator_code` is
truthy, so with `indicator_code=None` the `series_code` filter is ignored. -/
theorem filter_walk_divergence :
    process_sdg_information envNotFound goalsA (Option.some metaA)
        ⟨PyVal.str "1", PyVal.none, PyVal.none, PyVal.str "SI_POV_DAY1"⟩ true st0 = st0
    ∧ ((process_sdg_information envNotFound goalsA (Option.some metaA)
          ⟨PyVal.int 1, PyVal.none, PyVal.none, PyVal.str "SI_POV_DAY1"⟩ true st0).events.countP
        Event.isProcessedEv) = 2 := by
  constructor
  · decide
  · decide

/-- C3 (divergence): a first full-publish run for a fresh series whose data
file is present adds the raw CSV item and then returns `None` without ever
publishing the derived service — line 362 references the undefined global
`publishParameters` and the resulting `NameError` is swallowed by the bare
`except`, so the caller records the series as failed.  On a second run with
only the raw item present, the service item is searched by the final display
title and not found, so the run fails again instead of updating in place. -/
theorem publish_csv_first_run_divergence :
    (publish_csv envFresh ⟨"SI_POV_DAY1", "d", "2020.1"⟩ ⟨"T", "S", "D", []⟩ "thumb" st0).2
        = Option.none
    ∧ (publish_csv envFresh ⟨"SI_POV_DAY1", "d", "2020.1"⟩ ⟨"T", "S", "D", []⟩ "thumb" st0).1.events
        = [Event.searchFor "SI_POV_DAY1_20201",
           Event.addItem ⟨"SI_POV_DAY1_20201", "S", "D", []⟩ "thumb"
             "FIS4SDGs/csv/SI_POV_DAY1_cube.pivot.csv"]
    ∧ (publish_csv envSecondRun ⟨"SI_POV_DAY1", "d", "2020.1"⟩ ⟨"T", "S", "D", []⟩ "thumb" st0).2
        = Option.none := by
  refine ⟨rfl, rfl, rfl⟩

/-- C7 (divergence): with display metadata containing a record only for goal
1 (icon `"ICON1"`), both series updates of a two-goal run are performed with
thumbnail `"ICON1"` — the `goal_metadata` local is never reset, so goal 2,
absent from display metadata, silently reuses goal 1's record instead of the
fallback constant.  And when the *first* goal is the absent one, reading the
unbound `goal_metadata` raises `NameError`, aborting the whole run with no
output at all. -/
theorem thumbnail_fallback_divergence :
    ((process_sdg_information envFound goalsB (Option.some metaB) Filters.allNone true
        st0).events.filterMap thumbOfUpdate) = ["ICON1", "ICON1"]
    ∧ default_thumbnail ≠ "ICON1"
    ∧ process_sdg_information envFound goalsB
        (Option.some [⟨2, Option.some "ICON2", []⟩]) Filters.allNone true st0 = st0 := by
  refine ⟨by decide, by decide, by decide⟩

/-- C6: in metadata-only mode, a series whose catalog item is not found by
exact-title search has its code added to the failure ledger and no item
creation is performed (the trace holds only the progress print and the
search); if the item is found and the remote calls do not raise, the only
item mutation is a single in-place update of its metadata and thumbnail
(followed by the share and group-tag growth of lines 228-234). -/
theorem metadata_only_mode (env : Env) (gm : GoalMeta) (thumbnail : String)
    (goalTags targetTags indTags : List String)
    (pi_name pi_description targetCode indicatorCode : String)
    (s : Series) (st : WalkState) (props : ItemProperties)
    (hprops : props = series_item_properties gm goalTags targetTags indTags pi_name
      pi_description targetCode indicatorCode s) :
    ((env.searchResults props.title).find? (fun r => r == props.title) = Option.none →
      series_step env true gm thumbnail goalTags targetTags indTags pi_name pi_description
          targetCode indicatorCode s st
        = ({ st with
              events := st.events ++ [Event.processed indicatorCode s.code,
                Event.searchFor props.title],
              failed_series := st.failed_series ++ [s.code, s.code] }, Ctl.next))
    ∧ (∀ it, (env.searchResults props.title).find? (fun r => r == props.title) = Option.some it →
        env.updateRaises it = false → env.shareRaises it = false →
        series_step env true gm thumbnail goalTags targetTags indTags pi_name pi_description
            targetCode indicatorCode s st
          = ({ st with
                events := st.events ++ [Event.processed indicatorCode s.code,
                  Event.searchFor props.title, Event.updateItem props thumbnail,
                  Event.shareItem it],
                groupTags := st.groupTags ++ [s.code] }, Ctl.next)) := by
  subst hprops
  constructor
  · intro hfind
    simp only [series_step, find_online_item, WalkState.log, hfind, if_true]
    simp [List.append_assoc]
  · intro it hfind hupd hshare
    simp only [series_step, find_online_item, WalkState.log, share_tail, hfind, hupd, hshare,
      if_true, Bool.false_eq_true, if_false]
    simp [List.append_assoc]

/-- C6 (witness): one not-found series is double-recorded with no creation,
and one found series gets exactly one metadata/thumbnail update. -/
theorem metadata_only_mode_witness :
    series_step envNotFound true ⟨1, Option.none, []⟩ "TH" [] [] [] "PN" "PD" "TC" "IC"
        ⟨"SW", "dW", "r1"⟩ st0
      = ({ st0 with
            events := st0.events ++ [Event.processed "IC" "SW",
              Event.searchFor (series_item_properties ⟨1, Option.none, []⟩ [] [] [] "PN" "PD"
                "TC" "IC" ⟨"SW", "dW", "r1"⟩).title],
            failed_series := st0.failed_series ++ ["SW", "SW"] }, Ctl.next)
    ∧ series_step envFound true ⟨1, Option.none, []⟩ "TH" [] [] [] "PN" "PD" "TC" "IC"
        ⟨"SW", "dW", "r1"⟩ st0
      = ({ st0 with
            events := st0.events ++ [Event.processed "IC" "SW",
              Event.searchFor (series_item_properties ⟨1, Option.none, []⟩ [] [] [] "PN" "PD"
                "TC" "IC" ⟨"SW", "dW", "r1"⟩).title,
              Event.updateItem (series_item_properties ⟨1, Option.none, []⟩ [] [] [] "PN" "PD"
                "TC" "IC" ⟨"SW", "dW", "r1"⟩) "TH",
              Event.shareItem (series_item_properties ⟨1, Option.none, []⟩ [] [] [] "PN" "PD"
                "TC" "IC" ⟨"SW", "dW", "r1"⟩).title],
            groupTags := st0.groupTags ++ ["SW"] }, Ctl.next) :=
  ⟨(metadata_only_mode envNotFound ⟨1, Option.none, []⟩ "TH" [] [] [] "PN" "PD" "TC" "IC"
      ⟨"SW", "dW", "r1"⟩ st0 _ rfl).1 (by decide),
   (metadata_only_mode envFound ⟨1, Option.none, []⟩ "TH" [] [] [] "PN" "PD" "TC" "IC"
      ⟨"SW", "dW", "r1"⟩ st0 _ rfl).2
     (series_item_properties ⟨1, Option.none, []⟩ [] [] [] "PN" "PD" "TC" "IC"
       ⟨"SW", "dW", "r1"⟩).title (by decide) (by decide) (by decide)⟩

/-- C10: in metadata-only mode, a series whose catalog item is not found has
its code appended to the failure ledger twice in the same iteration — once in
the not-found branch (line 219) and once more in the shared null-result
branch (line 236) — and the walk continues to the next series. -/
theorem metadata_only_double_failure (env : Env) (gm : GoalMeta) (thumbnail : String)
    (goalTags targetTags indTags : List String)
    (pi_name pi_description targetCode indicatorCode : String)
    (s : Series) (st : WalkState)
    (hfind : (env.searchResults (series_item_properties gm goalTags targetTags indTags
        pi_name pi_description targetCode indicatorCode s).title).find?
        (fun r => r == (series_item_properties gm goalTags targetTags indTags
          pi_name pi_description targetCode indicatorCode s).title) = Option.none) :
    (series_step env true gm thumbnail goalTags targetTags indTags pi_name pi_description
        targetCode indicatorCode s st).1.failed_series
      = st.failed_series ++ [s.code, s.code]
    ∧ (series_step env true gm thumbnail goalTags targetTags indTags pi_name pi_description
        targetCode indicatorCode s st).2 = Ctl.next := by
  simp only [series_step, find_online_item, WalkState.log, hfind, if_true]
  simp [List.append_assoc]

/-- C10 (witness): a concrete not-found series is recorded twice. -/
theorem metadata_only_double_failure_witness :
    (series_step envNotFound true ⟨1, Option.none, []⟩ "TH" [] [] [] "PN" "PD" "TC" "IC"
        ⟨"SX", "dX", "r1"⟩ st0).1.failed_series = st0.failed_series ++ ["SX", "SX"]
    ∧ (series_step envNotFound true ⟨1, Option.none, []⟩ "TH" [] [] [] "PN" "PD" "TC" "IC"
        ⟨"SX", "dX", "r1"⟩ st0).2 = Ctl.next :=
  metadata_only_double_failure envNotFound ⟨1, Option.none, []⟩ "TH" [] [] [] "PN" "PD"
    "TC" "IC" ⟨"SX", "dX", "r1"⟩ st0 (by decide)

/-- `find_online_item` only logs a search event; the group tags are
untouched. -/
theorem find_online_item_groupTags (env : Env) (title : String) (st : WalkState) :
    ((find_online_item env title st).1).groupTags = st.groupTags := rfl

/-- `publish_csv` never touches the open-data group's tags. -/
theorem publish_csv_groupTags (env : Env) (series : Series) (props : ItemProperties)
    (thumbnail : String) (st : WalkState) :
    ((publish_csv env series props thumbnail st).1).groupTags = st.groupTags := by
  simp only [publish_csv, find_online_item, WalkState.log]
  repeat' split
  all_goals rfl

/-- `share_tail` may append the series code to the group tags but never
removes anything; any prefix of the tags before stays a prefix after. -/
theorem share_tail_groupTags (env : Env) (series : Series) (it : String) (st : WalkState)
    (tags : List String) (h : tags <+: st.groupTags) :
    tags <+: ((share_tail env series it st).1).groupTags := by
  unfold share_tail
  split
  · exact h
  · exact h.trans (List.prefix_append _ _)

/-- The per-series step only ever appends to the group tags. -/
theorem series_step_groupTags (env : Env) (pu : Bool) (gm : GoalMeta) (th : String)
    (goalTags targetTags indTags : List String) (pn pd tc ic : String)
    (s : Series) (st : WalkState) :
    st.groupTags <+:
      ((series_step env pu gm th goalTags targetTags indTags pn pd tc ic s st).1).groupTags := by
  simp only [series_step, find_online_item, WalkState.log]
  split
  · split
    · exact List.prefix_refl _
    · split
      · exact List.prefix_refl _
      · apply share_tail_groupTags
        exact List.prefix_refl _
  · split
    · rw [publish_csv_groupTags]
    · apply share_tail_groupTags
      rw [publish_csv_groupTags]

/-- On `Ctl.next` the tail runs from the body's final state; prefixes
compose. -/
theorem loopSeq_groupTags (r : WalkState × Ctl) (k : WalkState → WalkState × Ctl)
    (tags : List String)
    (h1 : tags <+: r.1.groupTags) (h2 : ∀ st, st.groupTags <+: (k st).1.groupTags) :
    tags <+: ((loopSeq r k).1).groupTags := by
  rcases r with ⟨st, f⟩
  cases f
  · exact h1.trans (h2 st)
  · exact h1
  · exact h1

/-- The series loop only ever appends to the group tags. -/
theorem series_loop_groupTags (env : Env) (pu : Bool) (f : Filters) (gm : GoalMeta)
    (th : String) (goalTags targetTags indTags : List String) (pn pd tc ic : String)
    (l : List Series) : ∀ (st : WalkState) (tags : List String), tags <+: st.groupTags →
    tags <+:
      ((series_loop env pu f gm th goalTags targetTags indTags pn pd tc ic l st).1).groupTags := by
  induction l with
  | nil => intro st tags h; exact h
  | cons s rest ih =>
    intro st tags h
    simp only [series_loop]
    split
    · exact ih st tags h
    · apply loopSeq_groupTags
      · exact h.trans (by apply series_step_groupTags)
      · intro st'; exact ih st' st'.groupTags (List.prefix_refl _)

/-- The indicator loop appends the indicator tag and whatever the series loop
appends. -/
theorem indicator_loop_groupTags (env : Env) (pu : Bool) (f : Filters) (gm : GoalMeta)
    (th : String) (goalTags targetTags : List String) (goal : Goal) (target : Target)
    (l : List Indicator) : ∀ (st : WalkState) (tags : List String), tags <+: st.groupTags →
    tags <+:
      ((indicator_loop env pu f gm th goalTags targetTags goal target l st).1).groupTags := by
  induction l with
  | nil => intro st tags h; exact h
  | cons ind rest ih =>
    intro st tags h
    simp only [indicator_loop]
    split
    · exact ih st tags h
    · apply loopSeq_groupTags
      · apply series_loop_groupTags
        exact h.trans (List.prefix_append _ _)
      · intro st'; exact ih st' st'.groupTags (List.prefix_refl _)

/-- The target loop appends the target tag and whatever the indicator loop
appends. -/
theorem target_loop_groupTags (env : Env) (pu : Bool) (f : Filters) (gm : GoalMeta)
    (th : String) (goalTags : List String) (goal : Goal)
    (l : List Target) : ∀ (st : WalkState) (tags : List String), tags <+: st.groupTags →
    tags <+:
      ((target_loop env pu f gm th goalTags goal l st).1).groupTags := by
  induction l with
  | nil => intro st tags h; exact h
  | cons t rest ih =>
    intro st tags h
    simp only [target_loop]
    split
    · exact h
    · exact ih st tags h
    · apply loopSeq_groupTags
      · apply indicator_loop_groupTags
        exact h.trans (List.prefix_append _ _)
      · intro st'; exact ih st' st'.groupTags (List.prefix_refl _)

/-- The goal loop only ever appends to the group tags. -/
theorem goal_loop_groupTags (env : Env) (pu : Bool) (f : Filters)
    (metadata : Option (List GoalMeta)) (l : List Goal) :
    ∀ (gmv : Option GoalMeta) (st : WalkState) (tags : List String), tags <+: st.groupTags →
    tags <+: ((goal_loop env pu f metadata l gmv st).1).groupTags := by
  induction l with
  | nil => intro gmv st tags h; exact h
  | cons g rest ih =>
    intro gmv st tags h
    simp only [goal_loop]
    split
    · exact h
    · exact ih gmv st tags h
    · split
      · exact h
      · split
        · exact h
        · split
          · exact h
          · apply loopSeq_groupTags
            · apply target_loop_groupTags
              exact h
            · intro st'; exact ih _ st' st'.groupTags (List.prefix_refl _)

/-- C9: across an entire run the open-data group's tag list only grows —
every group-tag update (once per target, line 162; once per indicator, line
175; once per successfully shared series, line 234) appends to the current
list, so the tags at the start of the run are a prefix of the tags at its
end, whatever the environment, taxonomy, filters, and mode. -/
theorem group_tags_only_grow (env : Env) (json_data : List Goal)
    (metadata : Option (List GoalMeta)) (filters : Filters)
    (property_update_only : Bool) (st : WalkState) :
    st.groupTags <+:
      (process_sdg_information env json_data metadata filters property_update_only
        st).groupTags := by
  unfold process_sdg_information
  apply goal_loop_groupTags
  exact List.prefix_refl _

/-- If the continuation agrees wherever the body fell through, a fail-fasting
`loopSeq` ignores any change of continuation. -/
theorem loopSeq_append (r : WalkState × Ctl) (k k' : WalkState → WalkState × Ctl)
    (hk : ∀ st, (k st).2 = Ctl.ret → k' st = k st) :
    (loopSeq r k).2 = Ctl.ret → loopSeq r k' = loopSeq r k := by
  rcases r with ⟨st, c⟩
  cases c
  · exact fun h => hk st h
  · exact fun _ => rfl
  · exact fun _ => rfl

/-- Once the series loop ends in the fail-fast `return`, any series appended
after the failing one are never processed: they do not change the result. -/
theorem series_loop_append (env : Env) (pu : Bool) (f : Filters) (gm : GoalMeta)
    (th : String) (gT tT iT : List String) (pn pd tc ic : String)
    (l more : List Series) : ∀ st : WalkState,
    (series_loop env pu f gm th gT tT iT pn pd tc ic l st).2 = Ctl.ret →
    series_loop env pu f gm th gT tT iT pn pd tc ic (l ++ more) st
      = series_loop env pu f gm th gT tT iT pn pd tc ic l st := by
  induction l with
  | nil =>
    intro st h
    simp [series_loop] at h
  | cons s rest ih =>
    intro st
    simp only [List.cons_append, series_loop]
    split
    · exact ih st
    · exact loopSeq_append _ _ _ (fun st' h' => ih st' h')

/-- Once the indicator loop ends in the fail-fast `return`, appended later
indicators are never processed. -/
theorem indicator_loop_append (env : Env) (pu : Bool) (f : Filters) (gm : GoalMeta)
    (th : String) (gT tT : List String) (goal : Goal) (target : Target)
    (l more : List Indicator) : ∀ st : WalkState,
    (indicator_loop env pu f gm th gT tT goal target l st).2 = Ctl.ret →
    indicator_loop env pu f gm th gT tT goal target (l ++ more) st
      = indicator_loop env pu f gm th gT tT goal target l st := by
  induction l with
  | nil =>
    intro st h
    simp [indicator_loop] at h
  | cons ind rest ih =>
    intro st
    simp only [List.cons_append, indicator_loop]
    split
    · exact ih st
    · exact loopSeq_append _ _ _ (fun st' h' => ih st' h')

/-- Once the target loop ends in the fail-fast `return`, appended later
targets are never processed. -/
theorem target_loop_append (env : Env) (pu : Bool) (f : Filters) (gm : GoalMeta)
    (th : String) (gT : List String) (goal : Goal)
    (l more : List Target) : ∀ st : WalkState,
    (target_loop env pu f gm th gT goal l st).2 = Ctl.ret →
    target_loop env pu f gm th gT goal (l ++ more) st
      = target_loop env pu f gm th gT goal l st := by
  induction l with
  | nil =>
    intro st h
    simp [target_loop] at h
  | cons t rest ih =>
    intro st
    simp only [List.cons_append, target_loop]
    split
    · exact fun _ => rfl
    · exact ih st
    · exact loopSeq_append _ _ _ (fun st' h' => ih st' h')

/-- Once the goal loop ends in the fail-fast `return`, appended later goals
are never processed. -/
theorem goal_loop_append (env : Env) (pu : Bool) (f : Filters)
    (metadata : Option (List GoalMeta)) (l more : List Goal) :
    ∀ (gmv : Option GoalMeta) (st : WalkState),
    (goal_loop env pu f metadata l gmv st).2 = Ctl.ret →
    goal_loop env pu f metadata (l ++ more) gmv st
      = goal_loop env pu f metadata l gmv st := by
  induction l with
  | nil =>
    intro gmv st h
    simp [goal_loop] at h
  | cons g rest ih =>
    intro gmv st
    simp only [List.cons_append, goal_loop]
    split
    · exact fun _ => rfl
    · exact ih gmv st
    · split
      · exact fun _ => rfl
      · split
        · exact fun _ => rfl
        · split
          · exact fun _ => rfl
          · exact loopSeq_append _ _ _ (fun st' h' => ih _ st' h')

/-- C1: for every series, in either mode, an exception raised inside the
guarded per-series publish/update step (lines 215-241) is reduced by the
handler of lines 237-241 to one ledger append and a `return` that terminates
the entire remaining taxonomy walk, and `process_sdg_information` still
returns an ordinary state (outer `except`, line 243).  The parts:
metadata-only mode with `item.update` raising (line 222); metadata-only mode
with `online_item.share` raising (line 231); full-publish mode with
`online_item.share` raising after a successful `publish_csv` — each ends the
step with `failed ++ [code]` and `Ctl.ret`.  Then, at every level of the
walk and for every environment, filters, mode, and state: once the loop
result carries the fail-fast `return` — wherever in the loop it arose, after
arbitrarily many successfully processed siblings — all series, indicators,
targets, and goals placed after it are never processed (appending them
changes nothing), and at the top level the returned state is unchanged by
the appended taxonomy. -/
theorem fail_fast_on_series_exception :
    (∀ (env : Env) (gm : GoalMeta) (th : String) (gT tT iT : List String)
        (pn pd tc ic : String) (s : Series) (st : WalkState)
        (props : ItemProperties) (it : String),
      props = series_item_properties gm gT tT iT pn pd tc ic s →
      (env.searchResults props.title).find? (fun r => r == props.title) = Option.some it →
      env.updateRaises it = true →
      series_step env true gm th gT tT iT pn pd tc ic s st
        = ({ st with
             events := st.events ++ [Event.processed ic s.code, Event.searchFor props.title],
             failed_series := st.failed_series ++ [s.code] }, Ctl.ret))
    ∧ (∀ (env : Env) (gm : GoalMeta) (th : String) (gT tT iT : List String)
        (pn pd tc ic : String) (s : Series) (st : WalkState)
        (props : ItemProperties) (it : String),
      props = series_item_properties gm gT tT iT pn pd tc ic s →
      (env.searchResults props.title).find? (fun r => r == props.title) = Option.some it →
      env.updateRaises it = false →
      env.shareRaises it = true →
      series_step env true gm th gT tT iT pn pd tc ic s st
        = ({ st with
             events := st.events ++ [Event.processed ic s.code, Event.searchFor props.title,
               Event.updateItem props th],
             failed_series := st.failed_series ++ [s.code] }, Ctl.ret))
    ∧ (∀ (env : Env) (gm : GoalMeta) (th : String) (gT tT iT : List String)
        (pn pd tc ic : String) (s : Series) (st st' : WalkState)
        (props : ItemProperties) (it : String),
      props = series_item_properties gm gT tT iT pn pd tc ic s →
      publish_csv env s props th
          { st with events := st.events ++ [Event.processed ic s.code] }
        = (st', Option.some it) →
      env.shareRaises it = true →
      series_step env false gm th gT tT iT pn pd tc ic s st
        = ({ st' with failed_series := st'.failed_series ++ [s.code] }, Ctl.ret))
    ∧ (∀ (env : Env) (pu : Bool) (f : Filters) (gm : GoalMeta) (th : String)
        (gT tT iT : List String) (pn pd tc ic : String)
        (l more : List Series) (st : WalkState),
      (series_loop env pu f gm th gT tT iT pn pd tc ic l st).2 = Ctl.ret →
      series_loop env pu f gm th gT tT iT pn pd tc ic (l ++ more) st
        = series_loop env pu f gm th gT tT iT pn pd tc ic l st)
    ∧ (∀ (env : Env) (pu : Bool) (f : Filters) (gm : GoalMeta) (th : String)
        (gT tT : List String) (goal : Goal) (target : Target)
        (l more : List Indicator) (st : WalkState),
      (indicator_loop env pu f gm th gT tT goal target l st).2 = Ctl.ret →
      indicator_loop env pu f gm th gT tT goal target (l ++ more) st
        = indicator_loop env pu f gm th gT tT goal target l st)
    ∧ (∀ (env : Env) (pu : Bool) (f : Filters) (gm : GoalMeta) (th : String)
        (gT : List String) (goal : Goal) (l more : List Target) (st : WalkState),
      (target_loop env pu f gm th gT goal l st).2 = Ctl.ret →
      target_loop env pu f gm th gT goal (l ++ more) st
        = target_loop env pu f gm th gT goal l st)
    ∧ (∀ (env : Env) (pu : Bool) (f : Filters) (metadata : Option (List GoalMeta))
        (l more : List Goal) (gmv : Option GoalMeta) (st : WalkState),
      (goal_loop env pu f metadata l gmv st).2 = Ctl.ret →
      goal_loop env pu f metadata (l ++ more) gmv st
        = goal_loop env pu f metadata l gmv st)
    ∧ (∀ (env : Env) (json_data more : List Goal) (metadata : Option (List GoalMeta))
        (f : Filters) (pu : Bool) (st : WalkState),
      (goal_loop env pu f metadata json_data Option.none st).2 = Ctl.ret →
      process_sdg_information env (json_data ++ more) metadata f pu st
        = process_sdg_information env json_data metadata f pu st) := by
  refine ⟨?_, ?_, ?_, ?_, ?_, ?_, ?_, ?_⟩
  · intro env gm th gT tT iT pn pd tc ic s st props it hprops hfound hraise
    subst hprops
    simp only [series_step, find_online_item, WalkState.log, hfound, hraise]
    simp [List.append_assoc]
  · intro env gm th gT tT iT pn pd tc ic s st props it hprops hfound hupd hshare
    subst hprops
    simp only [series_step, find_online_item, WalkState.log, share_tail, hfound, hupd, hshare]
    simp [List.append_assoc]
  · intro env gm th gT tT iT pn pd tc ic s st st' props it hprops hpc hshare
    subst hprops
    simp only [series_step, find_online_item, WalkState.log, share_tail, hpc, hshare]
    simp
  · intro env pu f gm th gT tT iT pn pd tc ic l more st h
    exact series_loop_append env pu f gm th gT tT iT pn pd tc ic l more st h
  · intro env pu f gm th gT tT goal target l more st h
    exact indicator_loop_append env pu f gm th gT tT goal target l more st h
  · intro env pu f gm th gT goal l more st h
    exact target_loop_append env pu f gm th gT goal l more st h
  · intro env pu f metadata l more gmv st h
    exact goal_loop_append env pu f metadata l more gmv st h
  · intro env json_data more metadata f pu st h
    unfold process_sdg_information
    exact congrArg Prod.fst (goal_loop_append env pu f metadata json_data more Option.none st h)

/-- C1 (witness): each part at a concrete input — an update raising in
metadata-only mode; a share raising in metadata-only mode; a share raising in
full-publish mode after a successful `publish_csv`; and fail-fast truncation
at the series, indicator, target, goal, and top levels, the last with the
failing series placed *after* a successfully processed sibling. -/
theorem fail_fast_on_series_exception_witness :
    series_step envFoundRaise true ⟨1, Option.none, []⟩ "TH" [] [] [] "PN" "PD" "TC" "IC"
        ⟨"SW", "sd", "2020.1"⟩ st0
      = ({ st0 with
           events := st0.events ++ [Event.processed "IC" "SW",
             Event.searchFor (series_item_properties ⟨1, Option.none, []⟩ [] [] [] "PN" "PD"
               "TC" "IC" ⟨"SW", "sd", "2020.1"⟩).title],
           failed_series := st0.failed_series ++ ["SW"] }, Ctl.ret)
    ∧ series_step envShareRaise true ⟨1, Option.none, []⟩ "TH" [] [] [] "PN" "PD" "TC" "IC"
        ⟨"SW", "sd", "2020.1"⟩ st0
      = ({ st0 with
           events := st0.events ++ [Event.processed "IC" "SW",
             Event.searchFor (series_item_properties ⟨1, Option.none, []⟩ [] [] [] "PN" "PD"
               "TC" "IC" ⟨"SW", "sd", "2020.1"⟩).title,
             Event.updateItem (series_item_properties ⟨1, Option.none, []⟩ [] [] [] "PN" "PD"
               "TC" "IC" ⟨"SW", "sd", "2020.1"⟩) "TH"],
           failed_series := st0.failed_series ++ ["SW"] }, Ctl.ret)
    ∧ series_step envShareRaise false ⟨1, Option.none, []⟩ "TH" [] [] [] "PN" "PD" "TC" "IC"
        ⟨"SW", "sd", "2020.1"⟩ st0
      = ({ st0 with
           events := st0.events ++ [Event.processed "IC" "SW", Event.searchFor "SW_20201",
             Event.updateDataItem
               { series_item_properties ⟨1, Option.none, []⟩ [] [] [] "PN" "PD" "TC" "IC"
                   ⟨"SW", "sd", "2020.1"⟩ with title := "SW_20201" } "TH"
               "FIS4SDGs/csv/SW_cube.pivot.csv",
             Event.searchFor (series_item_properties ⟨1, Option.none, []⟩ [] [] [] "PN" "PD"
               "TC" "IC" ⟨"SW", "sd", "2020.1"⟩).title,
             Event.updateItem (series_item_properties ⟨1, Option.none, []⟩ [] [] [] "PN" "PD"
               "TC" "IC" ⟨"SW", "sd", "2020.1"⟩) "TH"],
           failed_series := st0.failed_series ++ ["SW"] }, Ctl.ret)
    ∧ series_loop envFoundRaise true Filters.allNone ⟨1, Option.none, []⟩ "TH" [] [] []
        "PN" "PD" "TC" "IC" ([⟨"SA", "d", "r"⟩] ++ [⟨"SB", "d", "r"⟩]) st0
      = series_loop envFoundRaise true Filters.allNone ⟨1, Option.none, []⟩ "TH" [] [] []
        "PN" "PD" "TC" "IC" [⟨"SA", "d", "r"⟩] st0
    ∧ indicator_loop envFoundRaise true Filters.allNone ⟨1, Option.none, []⟩ "TH" [] []
        ⟨"1", "t", "d", []⟩ ⟨"1.1", "td", []⟩
        ([⟨"IA", "d", [⟨"SA", "d", "r"⟩]⟩] ++ [⟨"IB", "d", []⟩]) st0
      = indicator_loop envFoundRaise true Filters.allNone ⟨1, Option.none, []⟩ "TH" [] []
        ⟨"1", "t", "d", []⟩ ⟨"1.1", "td", []⟩ [⟨"IA", "d", [⟨"SA", "d", "r"⟩]⟩] st0
    ∧ target_loop envFoundRaise true Filters.allNone ⟨1, Option.none, []⟩ "TH" []
        ⟨"1", "t", "d", []⟩
        ([⟨"1.1", "td", [⟨"IA", "d", [⟨"SA", "d", "r"⟩]⟩]⟩] ++ [⟨"1.2", "t2", []⟩]) st0
      = target_loop envFoundRaise true Filters.allNone ⟨1, Option.none, []⟩ "TH" []
        ⟨"1", "t", "d", []⟩ [⟨"1.1", "td", [⟨"IA", "d", [⟨"SA", "d", "r"⟩]⟩]⟩] st0
    ∧ goal_loop envFoundRaise true Filters.allNone (Option.some metaA)
        ([⟨"1", "t", "gd", [⟨"1.1", "td", [⟨"IA", "d", [⟨"SA", "d", "r"⟩]⟩]⟩]⟩]
          ++ [⟨"2", "x", "y", []⟩]) Option.none st0
      = goal_loop envFoundRaise true Filters.allNone (Option.some metaA)
        [⟨"1", "t", "gd", [⟨"1.1", "td", [⟨"IA", "d", [⟨"SA", "d", "r"⟩]⟩]⟩]⟩] Option.none st0
    ∧ process_sdg_information envRaiseSecond
        ([⟨"1", "t", "gd", [⟨"1.1", "td", [⟨"IA", "id",
            [⟨"SA", "d1", "r"⟩, ⟨"SB", "d2", "r"⟩]⟩]⟩]⟩] ++ [⟨"2", "x", "y", []⟩])
        (Option.some metaA) Filters.allNone true st0
      = process_sdg_information envRaiseSecond
        [⟨"1", "t", "gd", [⟨"1.1", "td", [⟨"IA", "id",
            [⟨"SA", "d1", "r"⟩, ⟨"SB", "d2", "r"⟩]⟩]⟩]⟩]
        (Option.some metaA) Filters.allNone true st0 :=
  ⟨fail_fast_on_series_exception.1 envFoundRaise ⟨1, Option.none, []⟩ "TH" [] [] []
     "PN" "PD" "TC" "IC" ⟨"SW", "sd", "2020.1"⟩ st0 _
     (series_item_properties ⟨1, Option.none, []⟩ [] [] [] "PN" "PD" "TC" "IC"
       ⟨"SW", "sd", "2020.1"⟩).title rfl (by decide) (by decide),
   fail_fast_on_series_exception.2.1 envShareRaise ⟨1, Option.none, []⟩ "TH" [] [] []
     "PN" "PD" "TC" "IC" ⟨"SW", "sd", "2020.1"⟩ st0 _
     (series_item_properties ⟨1, Option.none, []⟩ [] [] [] "PN" "PD" "TC" "IC"
       ⟨"SW", "sd", "2020.1"⟩).title rfl (by decide) (by decide) (by decide),
   fail_fast_on_series_exception.2.2.1 envShareRaise ⟨1, Option.none, []⟩ "TH" [] [] []
     "PN" "PD" "TC" "IC" ⟨"SW", "sd", "2020.1"⟩ st0
     { st0 with
       events := st0.events ++ [Event.processed "IC" "SW", Event.searchFor "SW_20201",
         Event.updateDataItem
           { series_item_properties ⟨1, Option.none, []⟩ [] [] [] "PN" "PD" "TC" "IC"
               ⟨"SW", "sd", "2020.1"⟩ with title := "SW_20201" } "TH"
           "FIS4SDGs/csv/SW_cube.pivot.csv",
         Event.searchFor (series_item_properties ⟨1, Option.none, []⟩ [] [] [] "PN" "PD"
           "TC" "IC" ⟨"SW", "sd", "2020.1"⟩).title,
         Event.updateItem (series_item_properties ⟨1, Option.none, []⟩ [] [] [] "PN" "PD"
           "TC" "IC" ⟨"SW", "sd", "2020.1"⟩) "TH"] } _
     (series_item_properties ⟨1, Option.none, []⟩ [] [] [] "PN" "PD" "TC" "IC"
       ⟨"SW", "sd", "2020.1"⟩).title rfl (by decide) (by decide),
   fail_fast_on_series_exception.2.2.2.1 envFoundRaise true Filters.allNone
     ⟨1, Option.none, []⟩ "TH" [] [] [] "PN" "PD" "TC" "IC"
     [⟨"SA", "d", "r"⟩] [⟨"SB", "d", "r"⟩] st0 (by decide),
   fail_fast_on_series_exception.2.2.2.2.1 envFoundRaise true Filters.allNone
     ⟨1, Option.none, []⟩ "TH" [] [] ⟨"1", "t", "d", []⟩ ⟨"1.1", "td", []⟩
     [⟨"IA", "d", [⟨"SA", "d", "r"⟩]⟩] [⟨"IB", "d", []⟩] st0 (by decide),
   fail_fast_on_series_exception.2.2.2.2.2.1 envFoundRaise true Filters.allNone
     ⟨1, Option.none, []⟩ "TH" [] ⟨"1", "t", "d", []⟩
     [⟨"1.1", "td", [⟨"IA", "d", [⟨"SA", "d", "r"⟩]⟩]⟩] [⟨"1.2", "t2", []⟩] st0 (by decide),
   fail_fast_on_series_exception.2.2.2.2.2.2.1 envFoundRaise true Filters.allNone
     (Option.some metaA)
     [⟨"1", "t", "gd", [⟨"1.1", "td", [⟨"IA", "d", [⟨"SA", "d", "r"⟩]⟩]⟩]⟩]
     [⟨"2", "x", "y", []⟩] Option.none st0 (by decide),
   fail_fast_on_series_exception.2.2.2.2.2.2.2 envRaiseSecond
     [⟨"1", "t", "gd", [⟨"1.1", "td", [⟨"IA", "id",
         [⟨"SA", "d1", "r"⟩, ⟨"SB", "d2", "r"⟩]⟩]⟩]⟩]
     [⟨"2", "x", "y", []⟩] (Option.some metaA) Filters.allNone true st0 (by decide)⟩
